import Mathlib

/-
  Verification development for the dragonglass-poc supply-chain verifier.

  The Go source is shallowly embedded: pure functions become Lean functions,
  JSON values become an explicit `Json` inductive, filesystem effects of the
  lockfile store become an explicit operation trace, and the outcome of the
  cryptographic steps performed by the external sigstore-go library is
  abstracted by a boolean field on the parsed bundle (`cryptoOk`), since the
  claims under study only condition on those steps passing or failing as a
  whole.
-/

namespace Dragonglass

/-- JSON values, as produced by Go's encoding/json into `any` /
`map[string]any`.  Numbers are modelled as integers (no claim depends on
floating point values). -/
inductive Json where
  | null : Json
  | bool (b : Bool) : Json
  | num (n : Int) : Json
  | str (s : String) : Json
  | arr (xs : List Json) : Json
  | obj (fields : List (String × Json)) : Json

/-- First-match key lookup in a JSON object, mirroring Go map indexing on the
result of unmarshalling an object (our encoders never emit duplicate keys). -/
def lookupField (fields : List (String × Json)) (key : String) : Option Json :=
  match fields with
  | [] => none
  | (k, v) :: rest => if k = key then some v else lookupField rest key

/-- Whether the first list is an initial segment of the second. -/
def leadsWith : List Char → List Char → Bool
  | [], _ => true
  | _ :: _, [] => false
  | p :: ps, c :: cs => p = c && leadsWith ps cs

/-- Whether the second list occurs as a contiguous segment of the first. -/
def containsSeq : List Char → List Char → Bool
  | [], pat => pat.isEmpty
  | c :: rest, pat => leadsWith pat (c :: rest) || containsSeq rest pat

/-- Substring test, mirroring Go's strings.Contains. -/
def strContains (s pat : String) : Bool :=
  containsSeq s.data pat.data

/-- Split at the first colon of a character list. -/
def splitOnceColonChars : List Char → Option (List Char × List Char)
  | [] => none
  | c :: rest =>
    if c = ':' then some ([], rest)
    else
      match splitOnceColonChars rest with
      | none => none
      | some (pre, post) => some (c :: pre, post)

/-- Go strings.SplitN(s, ":", 2): `none` when `s` has no colon, otherwise the
part before the first colon and the remainder after it. -/
def splitOnceColon (s : String) : Option (String × String) :=
  match splitOnceColonChars s.data with
  | none => none
  | some (pre, post) => some (String.mk pre, String.mk post)

/-- Go strings.Split(s, sep) for a one-character separator. -/
def splitCharSep (sep : Char) : List Char → List (List Char)
  | [] => [[]]
  | c :: rest =>
    let r := splitCharSep sep rest
    if c = sep then [] :: r
    else
      match r with
      | [] => [[c]]
      | h :: t => (c :: h) :: t

/-- Go strings.Split(s, "/"). -/
def splitSlash (s : String) : List String :=
  (splitCharSep '/' s.data).map String.mk

/-- Value of a hexadecimal digit, or `none` (Go encoding/hex digit table). -/
def hexDigitVal (c : Char) : Option Nat :=
  if '0' ≤ c ∧ c ≤ '9' then some (c.toNat - 48)
  else if 'a' ≤ c ∧ c ≤ 'f' then some (c.toNat - 87)
  else if 'A' ≤ c ∧ c ≤ 'F' then some (c.toNat - 55)
  else none

/-- Go hex.DecodeString on a character list: fails on odd length or any
non-hex character. -/
def hexDecodeChars : List Char → Option (List Nat)
  | [] => some []
  | [_] => none
  | c1 :: c2 :: rest => do
      let h ← hexDigitVal c1
      let l ← hexDigitVal c2
      let bs ← hexDecodeChars rest
      pure ((16 * h + l) :: bs)

/-- Go hex.DecodeString. -/
def hexDecode (s : String) : Option (List Nat) :=
  hexDecodeChars s.data

/-- Lower-case hex digit for a value below 16. -/
def hexDigitChar (n : Nat) : Char :=
  if n < 10 then Char.ofNat (48 + n) else Char.ofNat (87 + n)

/-- Go hex.EncodeToString (lower-case). -/
def hexEncode (bs : List Nat) : String :=
  String.mk (bs.foldr (fun b acc => hexDigitChar (b / 16) :: hexDigitChar (b % 16) :: acc) [])

/-- Go filepath.Dir, restricted to the clean slash-separated paths the
lockfile store uses. -/
def dirOf (path : String) : String :=
  match (splitCharSep '/' path.data).dropLast with
  | [] => "."
  | parts => String.mk (List.intercalate ['/'] parts)

/-- Predicate type constants from internal/attestation/types.go. -/
def SLSAPredicateV1 : String := "https://slsa.dev/provenance/v1"

def SBOMPredicateV2 : String := "https://spdx.dev/Document/v2.3"

def SBOMPredicateV3 : String := "https://spdx.dev/Document/v3.0"

/-- One subject of an in-toto statement: a name and a mapping
algorithm → lower-case hex digest value. -/
structure Subject where
  name : String
  digests : List (String × String)
deriving DecidableEq

/-- The in-toto statement carried in a bundle's DSSE envelope. -/
structure Statement where
  subjects : List Subject
  predicateType : String
  predicate : Json

/-- A parsed sigstore bundle.  `statement` is the in-toto statement embedded
in its DSSE envelope.  `cryptoOk` abstracts the outcome of every
cryptographic step the external sigstore-go verifier runs apart from
artifact binding (DSSE signature, certificate chain, SCTs, transparency log,
integrated timestamps, certificate identity): the claims under study only
condition on those steps passing or failing as a whole. -/
structure Bundle where
  statement : Statement
  cryptoOk : Bool

/-- The artifact policy chosen by parseSignstoreBundle: either
verify.WithArtifactDigest(algorithm, bytes) or verify.WithoutArtifactUnsafe. -/
inductive ArtifactPolicy where
  | withoutArtifact : ArtifactPolicy
  | withArtifact (algorithm : String) (digestBytes : List Nat) : ArtifactPolicy
deriving DecidableEq

/-- The policy-construction logic of parseSignstoreBundle
(internal/attestation, `parseSignstoreBundle`): an empty digest, a digest
without a colon, or a digest whose value part fails hex decoding all leave
the artifact option unset, selecting WithoutArtifactUnsafe. -/
def parsePolicy (artifactDigest : String) : ArtifactPolicy :=
  if artifactDigest = "" then ArtifactPolicy.withoutArtifact
  else
    match splitOnceColon artifactDigest with
    | none => ArtifactPolicy.withoutArtifact
    | some (alg, value) =>
      match hexDecode value with
      | none => ArtifactPolicy.withoutArtifact
      | some bytes => ArtifactPolicy.withArtifact alg bytes

/-- Whether some subject of the statement lists the digest
`(algorithm, hexEncode bytes)`. -/
def subjectListsDigest (subjects : List Subject) (alg : String) (bytes : List Nat) : Bool :=
  subjects.any fun s => s.digests.any fun d => d.1 == alg && d.2 == hexEncode bytes

/-- Modelled from the spec: the artifact-binding step of sigstore-go's
`Verifier.Verify` (§4.4 step 8), which is library code not present in this
repository.  Under `bind_to_digest` some subject of the embedded statement
must list a matching `(algorithm, hex)` digest; under
WithoutArtifactUnsafe no subject check is performed.  All other steps are
abstracted by `cryptoOk`. -/
def sigstoreVerify (b : Bundle) (p : ArtifactPolicy) : Except String Unit :=
  if b.cryptoOk then
    match p with
    | ArtifactPolicy.withoutArtifact => Except.ok ()
    | ArtifactPolicy.withArtifact alg bytes =>
      if subjectListsDigest b.statement.subjects alg bytes then Except.ok ()
      else Except.error "subject digest mismatch"
  else Except.error "cryptographic verification failed"

/-- Parsed attestation data (internal/attestation/types.go AttestationData). -/
structure AttestationData where
  predicateType : String
  predicate : Json

/-- parseSignstoreBundle (internal/attestation): build the artifact policy
from the artifact digest, run full sigstore verification, then extract the
statement's predicate type and predicate.  The envelope/statement extraction
errors of the source can only occur for malformed bundles, which the model's
`Bundle` values already exclude. -/
def parseSignstoreBundle (artifactDigest : String) (b : Bundle) :
    Except String AttestationData :=
  match sigstoreVerify b (parsePolicy artifactDigest) with
  | Except.error e => Except.error ("sigstore bundle verification failed: " ++ e)
  | Except.ok _ =>
    Except.ok { predicateType := b.statement.predicateType
                predicate := b.statement.predicate }

/-- SLSA v1 builder (runDetails.builder), keeping the field the repository
reads. -/
structure ProvBuilder where
  id : String

/-- SLSA v1 build metadata (runDetails.metadata), keeping the field the
repository reads. -/
structure ProvMetadata where
  invocationId : String

/-- SLSA v1 run details. -/
structure RunDetails where
  builder : Option ProvBuilder
  metadata : Option ProvMetadata

/-- SLSA v1 build definition, keeping the fields the repository reads. -/
structure BuildDefinition where
  buildType : String
  externalParameters : Option Json

/-- SLSA v1 provenance predicate. -/
structure Provenance where
  buildDefinition : Option BuildDefinition
  runDetails : Option RunDetails

/-- Whether every key of a JSON object is in the given list of known proto
field names (protojson rejects unknown fields by default). -/
def allKeysKnown (fields : List (String × Json)) (known : List String) : Bool :=
  fields.all fun kv => known.contains kv.1

/-- A string-typed proto field: absent or null gives the empty string. -/
def protoStr (fields : List (String × Json)) (key : String) : Except String String :=
  match lookupField fields key with
  | none => Except.ok ""
  | some Json.null => Except.ok ""
  | some (Json.str s) => Except.ok s
  | some _ => Except.error ("field " ++ key ++ " must be a string")

/-- A message- or struct-typed proto field: absent or null gives `none`, an
object gives its field list, anything else is rejected. -/
def protoObj (fields : List (String × Json)) (key : String) :
    Except String (Option (List (String × Json))) :=
  match lookupField fields key with
  | none => Except.ok none
  | some Json.null => Except.ok none
  | some (Json.obj kvs) => Except.ok (some kvs)
  | some _ => Except.error ("field " ++ key ++ " must be an object")

/-- Modelled from the spec: protojson decoding of the SLSA v1 provenance
predicate (§3), performed by the external in-toto/protojson libraries.
Unknown fields are rejected as protojson does; of the known fields only the
ones the repository reads are decoded into structure, the rest are accepted
as given. -/
def decodeProvenance (j : Json) : Except String Provenance :=
  match j with
  | Json.obj fields =>
    if allKeysKnown fields ["buildDefinition", "runDetails"] then do
      let bdFields ← protoObj fields "buildDefinition"
      let bd ← match bdFields with
        | none => Except.ok none
        | some bdf =>
          if allKeysKnown bdf
              ["buildType", "externalParameters", "internalParameters",
               "resolvedDependencies"] then do
            let bt ← protoStr bdf "buildType"
            let ep ← protoObj bdf "externalParameters"
            Except.ok (some { buildType := bt
                              externalParameters := ep.map Json.obj : BuildDefinition })
          else Except.error "unknown field in buildDefinition"
      let rdFields ← protoObj fields "runDetails"
      let rd ← match rdFields with
        | none => Except.ok none
        | some rdf =>
          if allKeysKnown rdf ["builder", "metadata", "byproducts"] then do
            let bFields ← protoObj rdf "builder"
            let b ← match bFields with
              | none => Except.ok none
              | some bf =>
                if allKeysKnown bf ["id", "version", "builderDependencies"] then do
                  let bid ← protoStr bf "id"
                  Except.ok (some { id := bid : ProvBuilder })
                else Except.error "unknown field in builder"
            let mFields ← protoObj rdf "metadata"
            let m ← match mFields with
              | none => Except.ok none
              | some mf =>
                if allKeysKnown mf ["invocationId", "startedOn", "finishedOn"] then do
                  let inv ← protoStr mf "invocationId"
                  Except.ok (some { invocationId := inv : ProvMetadata })
                else Except.error "unknown field in metadata"
            Except.ok (some { builder := b, metadata := m : RunDetails })
          else Except.error "unknown field in runDetails"
      Except.ok { buildDefinition := bd, runDetails := rd }
    else Except.error "unknown field in provenance"
  | _ => Except.error "provenance must be a JSON object"

/-- Modelled from the spec: the in-toto library's `Provenance.Validate`
(§3 requires builder.id present; the library additionally requires the
build definition with a non-empty build type and external parameters, and
the run details with a builder). -/
def validateProvenance (p : Provenance) : Except String Unit :=
  match p.buildDefinition with
  | none => Except.error "buildDefinition is required"
  | some bd =>
    if bd.buildType = "" then Except.error "buildType is required"
    else match bd.externalParameters with
    | none => Except.error "externalParameters is required"
    | some _ =>
      match p.runDetails with
      | none => Except.error "runDetails is required"
      | some rd =>
        match rd.builder with
        | none => Except.error "builder is required"
        | some b =>
          if b.id = "" then Except.error "builder id is required" else Except.ok ()

/-- The getter chain runDetails.GetBuilder().GetId() used by verifySLSA:
every getter yields the zero value on a missing message. -/
def builderIdOf (prov : Provenance) : String :=
  match prov.runDetails with
  | some rd =>
    match rd.builder with
    | some b => b.id
    | none => ""
  | none => ""

/-- First `owner/repo` following a `github.com` path segment, mirroring the
indexed loop in verifySLSA. -/
def findOwnerRepo : List String → String
  | [] => ""
  | "github.com" :: a :: b :: _ => a ++ "/" ++ b
  | _ :: rest => findOwnerRepo rest

/-- Repository extraction from the invocation id URL in verifySLSA. -/
def extractRepoFromInvocationId (inv : String) : String :=
  if strContains inv "github.com/" then findOwnerRepo (splitSlash inv)
  else ""

/-- Repository fallback from buildDefinition.externalParameters
(workflow.repository) in verifySLSA. -/
def repoFromExternalParams (ep : Option Json) : String :=
  match ep with
  | some (Json.obj fields) =>
    match lookupField fields "workflow" with
    | some (Json.obj wf) =>
      match lookupField wf "repository" with
      | some (Json.str r) => r
      | _ => ""
    | _ => ""
  | _ => ""

/-- SLSA verification outcome (internal/attestation/types.go SLSAResult). -/
structure SLSAResult where
  valid : Bool
  repository : String
  workflow : String
  builder : String
  digest : String
  provenance : Option Provenance

/-- verifySLSA (internal/attestation): processes only the first SLSA
attestation; decodes and validates its provenance; marks the result valid
exactly when the trusted builder is non-empty and runDetails.builder.id
equals it; extracts the repository for reporting. -/
def verifySLSA (trustedBuilder : String) (attestations : List AttestationData) :
    Except String SLSAResult :=
  match attestations with
  | [] =>
    Except.ok { valid := false, repository := "", workflow := "", builder := ""
                digest := "", provenance := none }
  | att :: _ =>
    match decodeProvenance att.predicate with
    | Except.error e => Except.error ("failed to unmarshal SLSA provenance: " ++ e)
    | Except.ok prov =>
      match validateProvenance prov with
      | Except.error e => Except.error ("in-toto validation failed: " ++ e)
      | Except.ok _ =>
        let builder := builderIdOf prov
        let valid := trustedBuilder != "" && builder == trustedBuilder
        let repoFromMeta := match prov.runDetails with
          | some rd =>
            match rd.metadata with
            | some m => extractRepoFromInvocationId m.invocationId
            | none => ""
          | none => ""
        let repository :=
          if repoFromMeta = "" then
            match prov.buildDefinition with
            | some bd => repoFromExternalParams bd.externalParameters
            | none => ""
          else repoFromMeta
        Except.ok { valid := valid, repository := repository, workflow := ""
                    builder := builder, digest := "", provenance := some prov }

/-- A vulnerability record (internal/attestation/types.go Vulnerability). -/
structure Vulnerability where
  id : String
  severity : String
  component : String
  version : String
  description : String
  references : List String
deriving DecidableEq

/-- SBOM verification outcome (internal/attestation/types.go SBOMResult). -/
structure SBOMResult where
  valid : Bool
  format : String
  components : Nat
  vulnerabilities : List Vulnerability
deriving DecidableEq

/-- The placeholder vulnerability check of analyzeVulnerabilities for a
single package entry. -/
def vulnFromPackage (pkg : Json) : Option Vulnerability :=
  match pkg with
  | Json.obj pkgMap =>
    match lookupField pkgMap "name" with
    | some (Json.str name) =>
      match lookupField pkgMap "versionInfo" with
      | some (Json.str version) =>
        if strContains name "vulnerable-lib" then
          some { id := "CVE-2024-EXAMPLE", severity := "HIGH", component := name
                 version := version
                 description := "Example vulnerability in " ++ name
                 references := ["https://nvd.nist.gov/vuln/detail/CVE-2024-EXAMPLE"] }
        else none
      | _ => none
    | _ => none
  | _ => none

/-- analyzeVulnerabilities (internal/attestation): scans the packages list
for names containing "vulnerable-lib". -/
def analyzeVulnerabilities (sbomData : List (String × Json)) : List Vulnerability :=
  match lookupField sbomData "packages" with
  | some (Json.arr pkgs) => pkgs.filterMap vulnFromPackage
  | _ => []

/-- verifySBOM (internal/attestation): processes only the first SBOM
attestation; assigns the format from the predicate type; marks the result
valid exactly when the predicate is a JSON object, counting the entries of
its packages list; never returns an error. -/
def verifySBOM (attestations : List AttestationData) : Except String SBOMResult :=
  match attestations with
  | [] =>
    Except.ok { valid := false, format := "", components := 0, vulnerabilities := [] }
  | att :: _ =>
    let format :=
      if att.predicateType == SBOMPredicateV2 then "SPDX-2.3"
      else if att.predicateType == SBOMPredicateV3 then "SPDX-3.0"
      else "Unknown"
    match att.predicate with
    | Json.obj predicate =>
      let components :=
        match lookupField predicate "packages" with
        | some (Json.arr pkgs) => pkgs.length
        | _ => 0
      Except.ok { valid := true, format := format, components := components
                  vulnerabilities := analyzeVulnerabilities predicate }
    | _ =>
      Except.ok { valid := false, format := format, components := 0
                  vulnerabilities := [] }

/-- An OCI descriptor, keeping the fields the verification path reads. -/
structure OciDescriptor where
  digest : String
  annotations : List (String × String)

/-- A referrer manifest of the subject image together with the sigstore
bundle carried in its single bundle layer. -/
structure Referrer where
  desc : OciDescriptor
  bundle : Bundle

/-- An image as the verifier observes it after a successful reference parse
and resolve: the resolved manifest digest and the referrer set with artifact
type application/vnd.dev.sigstore.bundle.v0.3+json. -/
structure RegistryImage where
  resolvedDigest : String
  referrers : List Referrer

/-- First-match lookup in an annotation map. -/
def lookupAnn (annotations : List (String × String)) (key : String) : Option String :=
  match annotations with
  | [] => none
  | (k, v) :: rest => if k = key then some v else lookupAnn rest key

/-- GetSLSAAttestations (internal/oci): walks the bundle-typed referrers and
fetches the bundle only for referrers whose dev.sigstore.bundle.predicateType
annotation equals the SLSA provenance predicate type; every other referrer is
skipped.  The layer extraction of extractBundleFromManifest is modelled as
yielding the referrer's bundle. -/
def getSLSAAttestations (referrers : List Referrer) : List Bundle :=
  referrers.filterMap fun r =>
    match lookupAnn r.desc.annotations "dev.sigstore.bundle.predicateType" with
    | some pt => if pt = SLSAPredicateV1 then some r.bundle else none
    | none => none

/-- The attestation-reading loop of VerifyAttestations (internal/attestation):
each bundle is parsed and cryptographically verified with
parseSignstoreBundle; failures become indexed warnings and processing
continues.  Read errors and the raw-JSON fallback of the source concern
malformed byte streams, which the model's `Bundle` values already exclude. -/
def parseBundles (artifactDigest : String) :
    Nat → List Bundle → List AttestationData × List String
  | _, [] => ([], [])
  | i, b :: rest =>
    let tail := parseBundles artifactDigest (i + 1) rest
    match parseSignstoreBundle artifactDigest b with
    | Except.ok a => (a :: tail.1, tail.2)
    | Except.error e =>
      (tail.1, ("failed to parse sigstore bundle " ++ toString i ++ ": " ++ e) :: tail.2)

/-- Aggregate verification result (internal/attestation/types.go
VerificationResult). -/
structure VerificationResult where
  found : Bool
  valid : Bool
  errors : List String
  warnings : List String
  slsa : Option SLSAResult
  sbom : Option SBOMResult
  artifactDigest : String

/-- Warnings emitted for attestations of unrecognized predicate type in the
routing loop of VerifyAttestations (internal/attestation). -/
def unknownPredicateWarnings (atts : List AttestationData) : List String :=
  atts.filterMap fun a =>
    if a.predicateType == SLSAPredicateV1 || a.predicateType == SBOMPredicateV2
        || a.predicateType == SBOMPredicateV3 then none
    else some ("unknown predicate type: " ++ a.predicateType)

/-- The routing and aggregation tail of VerifyAttestations
(internal/attestation): split the parsed attestations by predicate type,
verify the SLSA group and the SBOM group (each of which examines only its
first attestation), and mark the aggregate valid exactly when the SLSA
verification succeeded with a valid result. -/
def processAttestations (trustedBuilder artifactDigest : String)
    (atts : List AttestationData) (parseWarnings : List String) : VerificationResult :=
  let slsaAtts := atts.filter fun a => a.predicateType == SLSAPredicateV1
  let sbomAtts := atts.filter fun a =>
    a.predicateType == SBOMPredicateV2 || a.predicateType == SBOMPredicateV3
  let warnings := parseWarnings ++ unknownPredicateWarnings atts
  let slsaPart :=
    if slsaAtts.isEmpty then (none, false, [])
    else
      match verifySLSA trustedBuilder slsaAtts with
      | Except.error e =>
        ((none : Option SLSAResult), false, ["SLSA verification failed: " ++ e])
      | Except.ok r => (some r, r.valid, ([] : List String))
  let sbomPart :=
    if sbomAtts.isEmpty then (none, [])
    else
      match verifySBOM sbomAtts with
      | Except.error e => ((none : Option SBOMResult), ["SBOM verification failed: " ++ e])
      | Except.ok r => (some r, ([] : List String))
  { found := true, valid := slsaPart.2.1, errors := slsaPart.2.2 ++ sbomPart.2
    warnings := warnings, slsa := slsaPart.1, sbom := sbomPart.1
    artifactDigest := artifactDigest }

/-- VerifyAttestations (internal/attestation): record the resolved digest,
discover bundle referrers, return a not-found result with empty errors and
warnings when none are fetched, otherwise parse and verify each bundle and
aggregate.  Reference parsing and resolution are modelled as successful,
which is the case the claims condition on. -/
def verifyAttestations (trustedBuilder : String) (img : RegistryImage) :
    VerificationResult :=
  let digest := img.resolvedDigest
  let readers := getSLSAAttestations img.referrers
  if readers.isEmpty then
    { found := false, valid := false, errors := [], warnings := []
      slsa := none, sbom := none, artifactDigest := digest }
  else
    let parsed := parseBundles digest 0 readers
    processAttestations trustedBuilder digest parsed.1 parsed.2

/-- Parsed attestation data of the sigstore service path
(internal/sigstore/service.go AttestationData), keeping the fields its
verification reads. -/
structure SvcAttestationData where
  attType : String
  subject : String
  predicate : Json
  predicateType : String
  signatureVerified : Bool

/-- determineAttestationType (internal/sigstore/service.go). -/
def determineAttestationType (predicateType : String) : String :=
  if strContains predicateType "slsa.dev/provenance" then "slsa"
  else if strContains predicateType "spdx.dev/Document" then "sbom"
  else "unknown"

/-- parseSigstoreBundle (internal/sigstore/service.go): its simplified
extraction leaves the predicate empty and the predicate type blank for every
successfully unmarshalled bundle, and marks the signature verified when the
bundle carries content. -/
def svcParseSigstoreBundle (artifactDigest : String) (_b : Bundle) : SvcAttestationData :=
  { attType := determineAttestationType "", subject := artifactDigest
    predicate := Json.obj [], predicateType := "", signatureVerified := true }

/-- SLSA outcome of the service path (internal/domain SLSAResult), keeping
the fields its verification writes. -/
structure SvcSLSAResult where
  level : Nat
  builderID : String
  trustedBuilder : Bool
deriving DecidableEq

/-- verifySLSAAttestation (internal/sigstore/service.go): reads
predicate["buildDefinition"]["buildType"] into the builder id and marks the
builder trusted exactly when that string equals the trusted builder; raises
the level for signature-verified attestations.  The trailing best-effort
re-parse of the full provenance only fills informational proto fields and is
not modelled. -/
def svcVerifySLSAAttestation (trustedBuilder : String) (attestation : SvcAttestationData) :
    SvcSLSAResult :=
  let fromBuildDef :=
    match attestation.predicate with
    | Json.obj pred =>
      match lookupField pred "buildDefinition" with
      | some (Json.obj buildDef) =>
        match lookupField buildDef "buildType" with
        | some (Json.str builderID) => (builderID, builderID == trustedBuilder)
        | _ => ("", false)
      | _ => ("", false)
    | _ => ("", false)
  { level := if attestation.signatureVerified then 3 else 1
    builderID := fromBuildDef.1, trustedBuilder := fromBuildDef.2 }

/-- SBOM outcome of the service path (internal/domain SBOMResult), keeping
the fields its verification writes. -/
structure SvcSBOMResult where
  documentName : String
  packages : List String
deriving DecidableEq

/-- verifySBOMAttestation (internal/sigstore/service.go). -/
def svcVerifySBOMAttestation (attestation : SvcAttestationData) : SvcSBOMResult :=
  match attestation.predicate with
  | Json.obj pred =>
    let docName :=
      match lookupField pred "name" with
      | some (Json.str n) => n
      | _ => "Unknown"
    let pkgs :=
      match lookupField pred "packages" with
      | some (Json.arr ps) =>
        ps.filterMap fun p =>
          match p with
          | Json.obj pm =>
            match lookupField pm "name" with
            | some (Json.str n) => some n
            | _ => none
          | _ => none
      | _ => []
    { documentName := docName, packages := pkgs }
  | _ => { documentName := "Unknown", packages := [] }

/-- Running state of the per-attestation loop in the service path's
VerifyAttestations. -/
structure SvcState where
  warnings : List String
  slsa : Option SvcSLSAResult
  sbom : Option SvcSBOMResult
  hasValidSLSA : Bool
  hasValidSBOM : Bool

/-- One iteration of the service path's per-attestation loop.  Neither
verification helper can return an error, so the error-collecting branches of
the source are unreachable. -/
def svcProcessOne (trustedBuilder : String) (st : SvcState) (att : SvcAttestationData) :
    SvcState :=
  if att.attType == "slsa" then
    let r := svcVerifySLSAAttestation trustedBuilder att
    { st with slsa := some r, hasValidSLSA := st.hasValidSLSA || r.trustedBuilder }
  else if att.attType == "sbom" then
    let r := svcVerifySBOMAttestation att
    { st with sbom := some r, hasValidSBOM := true }
  else
    { st with warnings := st.warnings ++ ["Unknown attestation type: " ++ att.attType] }

/-- Aggregate result of the service path (internal/domain
VerificationResult), keeping the fields its verification writes. -/
structure SvcVerificationResult where
  found : Bool
  valid : Bool
  errors : List String
  warnings : List String
  slsa : Option SvcSLSAResult
  sbom : Option SvcSBOMResult

/-- discoverAttestations (internal/sigstore/service.go): the same referrer
discovery as the attestation path followed by the service's own bundle
parsing. -/
def svcDiscoverAttestations (img : RegistryImage) : List SvcAttestationData :=
  (getSLSAAttestations img.referrers).map (svcParseSigstoreBundle img.resolvedDigest)

/-- VerifyAttestations (internal/sigstore/service.go): when discovery yields
no attestations the result carries the error "No attestations found";
otherwise each attestation is dispatched by type, overall validity requires
a trusted-builder SLSA outcome, and a missing or invalid SBOM adds a
warning. -/
def svcVerifyAttestations (trustedBuilder : String) (img : RegistryImage) :
    SvcVerificationResult :=
  let attestations := svcDiscoverAttestations img
  if attestations.isEmpty then
    { found := false, valid := false, errors := ["No attestations found"]
      warnings := [], slsa := none, sbom := none }
  else
    let st0 : SvcState :=
      { warnings := [], slsa := none, sbom := none
        hasValidSLSA := false, hasValidSBOM := false }
    let st := attestations.foldl (svcProcessOne trustedBuilder) st0
    let warnings :=
      if st.hasValidSBOM then st.warnings
      else st.warnings ++ ["SBOM attestation not found or invalid"]
    { found := true, valid := st.hasValidSLSA, errors := [], warnings := warnings
      slsa := st.slsa, sbom := st.sbom }

/-- Verification state recorded for a plugin
(internal/lockfile/lockfile.go VerificationState).  The Go slices carrying
`omitempty` are modelled as lists, the empty list standing for an absent
field. -/
structure LockVerificationState where
  provenanceVerified : Bool
  sbomVerified : Bool
  vulnScanPassed : Bool
  warnings : List String
  errors : List String
deriving DecidableEq

/-- Captured plugin metadata (internal/lockfile/lockfile.go PluginMetadata);
every field carries `omitempty`. -/
structure LockPluginMetadata where
  author : String
  description : String
  homepage : String
  repository : String
  license : String
  tags : List String
  extra : List (String × String)
deriving DecidableEq

/-- One lockfile entry (internal/lockfile/lockfile.go PluginEntry). -/
structure PluginEntry where
  name : String
  version : String
  ociReference : String
  ociDigest : String
  verificationState : LockVerificationState
  metadata : LockPluginMetadata
deriving DecidableEq

/-- Lockfile self-description (internal/lockfile/lockfile.go
LockfileMetadata). -/
structure LockfileMetadata where
  vaultPath : String
  dragonglassVersion : String
  schemaVersion : String
deriving DecidableEq

/-- The lockfile value (internal/lockfile/lockfile.go Lockfile).  The
timestamps are kept as their RFC-3339 string form; the plugins map is an
association list of its entries, with `none` standing for Go's nil map
(which serializes to JSON null and fails validation). -/
structure Lockfile where
  version : String
  generatedAt : String
  updatedAt : String
  plugins : Option (List (String × PluginEntry))
  metadata : LockfileMetadata
deriving DecidableEq

/-- Schema version constant LockfileVersion. -/
def LockfileVersion : String := "1"

/-- File mode constant DefaultLockfilePerms from
internal/lockfile/lockfile.go: rw-r--r--, not owner-only. -/
def DefaultLockfilePerms : Nat := 0o644

/-- NewLockfile: a fresh lockfile at the given creation time. -/
def newLockfile (now vaultPath : String) : Lockfile :=
  { version := LockfileVersion, generatedAt := now, updatedAt := now
    plugins := some []
    metadata := { vaultPath := vaultPath, dragonglassVersion := "dev"
                  schemaVersion := LockfileVersion } }

/-- The per-plugin checks of Lockfile.Validate. -/
def validateEntry (pluginID : String) (plugin : PluginEntry) : Except String Unit :=
  if plugin.name = "" then Except.error ("plugin " ++ pluginID ++ ": name is required")
  else if plugin.ociReference = "" then
    Except.error ("plugin " ++ pluginID ++ ": OCI reference is required")
  else if plugin.ociDigest = "" then
    Except.error ("plugin " ++ pluginID ++ ": OCI digest is required")
  else Except.ok ()

/-- The plugin loop of Lockfile.Validate. -/
def validatePlugins : List (String × PluginEntry) → Except String Unit
  | [] => Except.ok ()
  | (pid, p) :: rest =>
    match validateEntry pid p with
    | Except.error e => Except.error e
    | Except.ok _ => validatePlugins rest

/-- Lockfile.Validate: requires a non-empty version, a non-nil plugins map,
and for every plugin a non-empty name, OCI reference and OCI digest. -/
def validateLockfile (l : Lockfile) : Except String Unit :=
  if l.version = "" then Except.error "lockfile version is required"
  else
    match l.plugins with
    | none => Except.error "plugins map cannot be nil"
    | some ps => validatePlugins ps

/-- First-match lookup of a plugin id. -/
def lookupPlugin (ps : List (String × PluginEntry)) (pluginID : String) :
    Option PluginEntry :=
  match ps with
  | [] => none
  | (k, v) :: rest => if k = pluginID then some v else lookupPlugin rest pluginID

/-- Go map assignment on the association list: replace the existing binding
or append a new one. -/
def setPlugin (ps : List (String × PluginEntry)) (pluginID : String) (p : PluginEntry) :
    List (String × PluginEntry) :=
  match ps with
  | [] => [(pluginID, p)]
  | (k, v) :: rest =>
    if k = pluginID then (k, p) :: rest else (k, v) :: setPlugin rest pluginID p

/-- Go map deletion on the association list. -/
def removePluginKey (ps : List (String × PluginEntry)) (pluginID : String) :
    List (String × PluginEntry) :=
  match ps with
  | [] => []
  | (k, v) :: rest =>
    if k = pluginID then rest else (k, v) :: removePluginKey rest pluginID

/-- Lockfile.AddPlugin: rejects an empty plugin id or an entry with an empty
name, otherwise stores the entry and bumps the update timestamp; no other
field of the entry is checked.  On error the receiver is left unchanged
(the source returns before mutating). -/
def addPlugin (now : String) (l : Lockfile) (pluginID : String) (plugin : PluginEntry) :
    Except String Lockfile :=
  if pluginID = "" then Except.error "plugin ID is required"
  else if plugin.name = "" then Except.error "plugin name is required"
  else
    Except.ok { l with plugins := some (setPlugin (l.plugins.getD []) pluginID plugin)
                       updatedAt := now }

/-- Lockfile.RemovePlugin: fails when the id is absent, otherwise deletes
the entry and bumps the update timestamp. -/
def removePlugin (now : String) (l : Lockfile) (pluginID : String) :
    Except String Lockfile :=
  match lookupPlugin (l.plugins.getD []) pluginID with
  | none => Except.error ("plugin " ++ pluginID ++ " not found in lockfile")
  | some _ =>
    Except.ok { l with plugins := some (removePluginKey (l.plugins.getD []) pluginID)
                       updatedAt := now }

/-- JSON encoding of a string list. -/
def encodeStrList (l : List String) : Json :=
  Json.arr (l.map Json.str)

/-- json.Marshal of VerificationState: the warnings and errors slices carry
`omitempty` and are dropped when empty. -/
def encodeVerificationState (v : LockVerificationState) : Json :=
  Json.obj
    ([("provenance_verified", Json.bool v.provenanceVerified),
      ("sbom_verified", Json.bool v.sbomVerified),
      ("vuln_scan_passed", Json.bool v.vulnScanPassed)]
      ++ (if v.warnings.isEmpty then [] else [("warnings", encodeStrList v.warnings)])
      ++ (if v.errors.isEmpty then [] else [("errors", encodeStrList v.errors)]))

/-- json.Marshal of PluginMetadata: every field carries `omitempty`. -/
def encodePluginMetadata (m : LockPluginMetadata) : Json :=
  Json.obj
    ((if m.author = "" then [] else [("author", Json.str m.author)])
      ++ (if m.description = "" then [] else [("description", Json.str m.description)])
      ++ (if m.homepage = "" then [] else [("homepage", Json.str m.homepage)])
      ++ (if m.repository = "" then [] else [("repository", Json.str m.repository)])
      ++ (if m.license = "" then [] else [("license", Json.str m.license)])
      ++ (if m.tags.isEmpty then [] else [("tags", encodeStrList m.tags)])
      ++ (if m.extra.isEmpty then []
          else [("extra", Json.obj (m.extra.map fun kv => (kv.1, Json.str kv.2)))]))

/-- json.Marshal of PluginEntry. -/
def encodePluginEntry (p : PluginEntry) : Json :=
  Json.obj
    [("name", Json.str p.name),
     ("version", Json.str p.version),
     ("oci_reference", Json.str p.ociReference),
     ("oci_digest", Json.str p.ociDigest),
     ("verification_state", encodeVerificationState p.verificationState),
     ("metadata", encodePluginMetadata p.metadata)]

/-- json.Marshal of Lockfile (indentation is irrelevant in the model; a nil
plugins map marshals to JSON null). -/
def encodeLockfile (l : Lockfile) : Json :=
  Json.obj
    [("version", Json.str l.version),
     ("generated_at", Json.str l.generatedAt),
     ("updated_at", Json.str l.updatedAt),
     ("plugins",
       match l.plugins with
       | none => Json.null
       | some ps => Json.obj (ps.map fun kv => (kv.1, encodePluginEntry kv.2))),
     ("metadata",
       Json.obj [("vault_path", Json.str l.metadata.vaultPath),
                 ("dragonglass_version", Json.str l.metadata.dragonglassVersion),
                 ("schema_version", Json.str l.metadata.schemaVersion)])]

/-- json.Unmarshal into a string field: a missing key or JSON null leaves
the zero value; any other non-string value is a type error. -/
def getStr (fields : List (String × Json)) (key : String) : Except String String :=
  match lookupField fields key with
  | none => Except.ok ""
  | some Json.null => Except.ok ""
  | some (Json.str s) => Except.ok s
  | some _ => Except.error ("cannot unmarshal field " ++ key)

/-- json.Unmarshal into a bool field. -/
def getBool (fields : List (String × Json)) (key : String) : Except String Bool :=
  match lookupField fields key with
  | none => Except.ok false
  | some Json.null => Except.ok false
  | some (Json.bool b) => Except.ok b
  | some _ => Except.error ("cannot unmarshal field " ++ key)

/-- json.Unmarshal of a JSON array into a []string. -/
def decodeStrElems : List Json → Except String (List String)
  | [] => Except.ok []
  | Json.str s :: rest => (decodeStrElems rest).map fun l => s :: l
  | _ => Except.error "cannot unmarshal string array element"

/-- json.Unmarshal into a []string field: missing or null leaves nil,
modelled as the empty list. -/
def getStrList (fields : List (String × Json)) (key : String) :
    Except String (List String) :=
  match lookupField fields key with
  | none => Except.ok []
  | some Json.null => Except.ok []
  | some (Json.arr xs) => decodeStrElems xs
  | some _ => Except.error ("cannot unmarshal field " ++ key)

/-- json.Unmarshal of a JSON object into a map[string]string. -/
def decodeStrPairs : List (String × Json) → Except String (List (String × String))
  | [] => Except.ok []
  | (k, Json.str s) :: rest => (decodeStrPairs rest).map fun l => (k, s) :: l
  | _ => Except.error "cannot unmarshal string map element"

/-- json.Unmarshal into VerificationState. -/
def decodeVerificationState (j : Json) : Except String LockVerificationState :=
  match j with
  | Json.null =>
    Except.ok { provenanceVerified := false, sbomVerified := false
                vulnScanPassed := false, warnings := [], errors := [] }
  | Json.obj fields =>
    match getBool fields "provenance_verified" with
    | Except.error e => Except.error e
    | Except.ok pv =>
      match getBool fields "sbom_verified" with
      | Except.error e => Except.error e
      | Except.ok sv =>
        match getBool fields "vuln_scan_passed" with
        | Except.error e => Except.error e
        | Except.ok vp =>
          match getStrList fields "warnings" with
          | Except.error e => Except.error e
          | Except.ok ws =>
            match getStrList fields "errors" with
            | Except.error e => Except.error e
            | Except.ok es =>
              Except.ok { provenanceVerified := pv, sbomVerified := sv
                          vulnScanPassed := vp, warnings := ws, errors := es }
  | _ => Except.error "cannot unmarshal verification_state"

/-- json.Unmarshal of the optional extra map of PluginMetadata. -/
def decodeExtraField (fields : List (String × Json)) :
    Except String (List (String × String)) :=
  match lookupField fields "extra" with
  | none => Except.ok []
  | some Json.null => Except.ok []
  | some (Json.obj kvs) => decodeStrPairs kvs
  | some _ => Except.error "cannot unmarshal field extra"

/-- json.Unmarshal into PluginMetadata. -/
def decodePluginMetadata (j : Json) : Except String LockPluginMetadata :=
  match j with
  | Json.null =>
    Except.ok { author := "", description := "", homepage := "", repository := ""
                license := "", tags := [], extra := [] }
  | Json.obj fields =>
    match getStr fields "author" with
    | Except.error e => Except.error e
    | Except.ok au =>
      match getStr fields "description" with
      | Except.error e => Except.error e
      | Except.ok de =>
        match getStr fields "homepage" with
        | Except.error e => Except.error e
        | Except.ok ho =>
          match getStr fields "repository" with
          | Except.error e => Except.error e
          | Except.ok re =>
            match getStr fields "license" with
            | Except.error e => Except.error e
            | Except.ok li =>
              match getStrList fields "tags" with
              | Except.error e => Except.error e
              | Except.ok ta =>
                match decodeExtraField fields with
                | Except.error e => Except.error e
                | Except.ok ex =>
                  Except.ok { author := au, description := de, homepage := ho
                              repository := re, license := li, tags := ta
                              extra := ex }
  | _ => Except.error "cannot unmarshal metadata"

/-- json.Unmarshal into PluginEntry. -/
def decodePluginEntry (j : Json) : Except String PluginEntry :=
  match j with
  | Json.null =>
    Except.ok { name := "", version := "", ociReference := "", ociDigest := ""
                verificationState :=
                  { provenanceVerified := false, sbomVerified := false
                    vulnScanPassed := false, warnings := [], errors := [] }
                metadata :=
                  { author := "", description := "", homepage := "", repository := ""
                    license := "", tags := [], extra := [] } }
  | Json.obj fields =>
    match getStr fields "name" with
    | Except.error e => Except.error e
    | Except.ok na =>
      match getStr fields "version" with
      | Except.error e => Except.error e
      | Except.ok ve =>
        match getStr fields "oci_reference" with
        | Except.error e => Except.error e
        | Except.ok orf =>
          match getStr fields "oci_digest" with
          | Except.error e => Except.error e
          | Except.ok od =>
            match decodeVerificationState
                ((lookupField fields "verification_state").getD Json.null) with
            | Except.error e => Except.error e
            | Except.ok vs =>
              match decodePluginMetadata
                  ((lookupField fields "metadata").getD Json.null) with
              | Except.error e => Except.error e
              | Except.ok md =>
                Except.ok { name := na, version := ve, ociReference := orf
                            ociDigest := od, verificationState := vs
                            metadata := md }
  | _ => Except.error "cannot unmarshal plugin entry"

/-- json.Unmarshal of the plugins object into the entry map. -/
def decodePluginPairs : List (String × Json) → Except String (List (String × PluginEntry))
  | [] => Except.ok []
  | (k, v) :: rest =>
    match decodePluginEntry v with
    | Except.error e => Except.error e
    | Except.ok entry =>
      match decodePluginPairs rest with
      | Except.error e => Except.error e
      | Except.ok l => Except.ok ((k, entry) :: l)

/-- json.Unmarshal into LockfileMetadata. -/
def decodeLockfileMetadata (j : Json) : Except String LockfileMetadata :=
  match j with
  | Json.null =>
    Except.ok { vaultPath := "", dragonglassVersion := "", schemaVersion := "" }
  | Json.obj fields =>
    match getStr fields "vault_path" with
    | Except.error e => Except.error e
    | Except.ok vp =>
      match getStr fields "dragonglass_version" with
      | Except.error e => Except.error e
      | Except.ok dv =>
        match getStr fields "schema_version" with
        | Except.error e => Except.error e
        | Except.ok sv =>
          Except.ok { vaultPath := vp, dragonglassVersion := dv, schemaVersion := sv }
  | _ => Except.error "cannot unmarshal metadata"

/-- json.Unmarshal of the plugins field of the lockfile: missing or null
leaves the nil map. -/
def decodePluginsField (fields : List (String × Json)) :
    Except String (Option (List (String × PluginEntry))) :=
  match lookupField fields "plugins" with
  | none => Except.ok none
  | some Json.null => Except.ok none
  | some (Json.obj kvs) =>
    match decodePluginPairs kvs with
    | Except.error e => Except.error e
    | Except.ok ps => Except.ok (some ps)
  | some _ => Except.error "cannot unmarshal field plugins"

/-- json.Unmarshal into Lockfile: missing fields leave zero values; the
plugins map stays nil when the field is missing or null. -/
def decodeLockfile (j : Json) : Except String Lockfile :=
  match j with
  | Json.obj fields =>
    match getStr fields "version" with
    | Except.error e => Except.error e
    | Except.ok ve =>
      match getStr fields "generated_at" with
      | Except.error e => Except.error e
      | Except.ok ga =>
        match getStr fields "updated_at" with
        | Except.error e => Except.error e
        | Except.ok ua =>
          match decodePluginsField fields with
          | Except.error e => Except.error e
          | Except.ok ps =>
            match decodeLockfileMetadata
                ((lookupField fields "metadata").getD Json.null) with
            | Except.error e => Except.error e
            | Except.ok md =>
              Except.ok { version := ve, generatedAt := ga, updatedAt := ua
                          plugins := ps, metadata := md }
  | _ => Except.error "failed to parse lockfile"

/-- LoadLockfile for a file that exists with the given (already
JSON-parsed) contents: unmarshal, then validate.  The absent-file branch of
the source returns a fresh lockfile and is not involved in the claims. -/
def loadLockfile (contents : Json) : Except String Lockfile :=
  match decodeLockfile contents with
  | Except.error e => Except.error ("failed to parse lockfile: " ++ e)
  | Except.ok lf =>
    match validateLockfile lf with
    | Except.error e => Except.error ("invalid lockfile: " ++ e)
    | Except.ok _ => Except.ok lf

/-- A filesystem operation performed by the lockfile store. -/
inductive FsOp where
  | mkdirAll (dir : String) (perm : Nat) : FsOp
  | writeFile (path : String) (contents : Json) (perm : Nat) : FsOp
  | rename (src dst : String) : FsOp

/-- Whether an operation is a rename. -/
def FsOp.isRename : FsOp → Bool
  | FsOp.rename _ _ => true
  | _ => false

/-- SaveLockfile: validate, create the parent directory, and write the
serialized document directly to the lockfile path with DefaultLockfilePerms
(0644).  The trace records every filesystem operation performed: there is no
temporary file and no rename. -/
def saveLockfile (l : Lockfile) (lockfilePath : String) : Except String (List FsOp) :=
  match validateLockfile l with
  | Except.error e => Except.error ("invalid lockfile: " ++ e)
  | Except.ok _ =>
    Except.ok [FsOp.mkdirAll (dirOf lockfilePath) 0o755,
               FsOp.writeFile lockfilePath (encodeLockfile l) DefaultLockfilePerms]

/-- A statement subject binding the sample digest sha256:0a. -/
def sampleSubject : Subject :=
  { name := "artifact", digests := [("sha256", "0a")] }

/-- A statement subject binding a different digest sha256:0b. -/
def otherSubject : Subject :=
  { name := "artifact", digests := [("sha256", "0b")] }

/-- A provenance predicate whose buildDefinition.buildType carries one URI
and whose runDetails.builder.id carries another. -/
def crossedPredicate : Json :=
  Json.obj
    [("buildDefinition",
       Json.obj [("buildType", Json.str "https://trusted.example/builder"),
                 ("externalParameters", Json.obj [])]),
     ("runDetails",
       Json.obj [("builder",
                   Json.obj [("id", Json.str "https://evil.example/builder")])])]

/-- A provenance predicate with the given builder id. -/
def slsaPredicate (builderId : String) : Json :=
  Json.obj
    [("buildDefinition",
       Json.obj [("buildType", Json.str "https://example/buildtype"),
                 ("externalParameters", Json.obj [])]),
     ("runDetails",
       Json.obj [("builder", Json.obj [("id", Json.str builderId)])])]

/-- Service-path attestation data carrying the crossed predicate. -/
def crossedSvcAtt : SvcAttestationData :=
  { attType := "slsa", subject := "sha256:0a", predicate := crossedPredicate
    predicateType := SLSAPredicateV1, signatureVerified := true }

/-- Attestation-path attestation data carrying the crossed predicate. -/
def crossedAtt : AttestationData :=
  { predicateType := SLSAPredicateV1, predicate := crossedPredicate }

/-- A bundle whose statement subject lists only sha256:0b, with every
cryptographic step passing. -/
def mismatchedBundle : Bundle :=
  { statement := { subjects := [otherSubject], predicateType := SLSAPredicateV1
                   predicate := slsaPredicate "https://trusted.example/builder" }
    cryptoOk := true }

/-- An SBOM attestation whose predicate is a JSON object with two packages. -/
def sbomObjAtt : AttestationData :=
  { predicateType := SBOMPredicateV2
    predicate := Json.obj
      [("packages",
         Json.arr [Json.obj [("name", Json.str "safe-lib"),
                             ("versionInfo", Json.str "1.0.0")],
                   Json.obj [("name", Json.str "other-lib"),
                             ("versionInfo", Json.str "2.0.0")]])] }

/-- An SBOM attestation whose predicate is not a JSON object. -/
def sbomStrAtt : AttestationData :=
  { predicateType := SBOMPredicateV2, predicate := Json.str "not-a-map" }

/-- A bundle carrying SLSA provenance from the untrusted builder, with the
subject bound to sha256:0a. -/
def evilBundle : Bundle :=
  { statement := { subjects := [sampleSubject], predicateType := SLSAPredicateV1
                   predicate := slsaPredicate "https://evil.example/builder" }
    cryptoOk := true }

/-- A bundle carrying SLSA provenance from the trusted builder, with the
subject bound to sha256:0a. -/
def trustedBundle : Bundle :=
  { statement := { subjects := [sampleSubject], predicateType := SLSAPredicateV1
                   predicate := slsaPredicate "https://trusted.example/builder" }
    cryptoOk := true }

/-- The referrer annotation marking a SLSA provenance bundle. -/
def slsaAnnotations : List (String × String) :=
  [("dev.sigstore.bundle.predicateType", SLSAPredicateV1)]

/-- An image with two SLSA bundle referrers: the first from the untrusted
builder, the second from the trusted builder. -/
def twoSlsaImage : RegistryImage :=
  { resolvedDigest := "sha256:0a"
    referrers :=
      [{ desc := { digest := "sha256:r1", annotations := slsaAnnotations }
         bundle := evilBundle },
       { desc := { digest := "sha256:r2", annotations := slsaAnnotations }
         bundle := trustedBundle }] }

/-- A bundle carrying an SPDX 2.3 SBOM statement with two packages, with the
subject bound to sha256:0a. -/
def sbomBundle : Bundle :=
  { statement := { subjects := [sampleSubject], predicateType := SBOMPredicateV2
                   predicate := sbomObjAtt.predicate }
    cryptoOk := true }

/-- An image whose only bundle referrer is an SBOM attestation, annotated
with the SPDX 2.3 predicate type. -/
def sbomOnlyImage : RegistryImage :=
  { resolvedDigest := "sha256:0a"
    referrers :=
      [{ desc := { digest := "sha256:r3"
                   annotations := [("dev.sigstore.bundle.predicateType", SBOMPredicateV2)] }
         bundle := sbomBundle }] }

/-- An image that resolves but has no bundle referrers. -/
def emptyReferrersImage : RegistryImage :=
  { resolvedDigest := "sha256:0a", referrers := [] }

/-- A fresh lockfile for a sample vault. -/
def sampleLockfile : Lockfile :=
  newLockfile "2024-01-01T00:00:00Z" "/vault"

/-- The standard lockfile location inside the sample vault. -/
def sampleLockfilePath : String :=
  "/vault/.obsidian/dragonglass-lock.json"

/-- A plugin entry with a name but an empty pinned OCI reference and an
empty pinned OCI digest. -/
def emptyRefEntry : PluginEntry :=
  { name := "test-plugin", version := "1.0.0", ociReference := "", ociDigest := ""
    verificationState :=
      { provenanceVerified := false, sbomVerified := false, vulnScanPassed := false
        warnings := [], errors := [] }
    metadata :=
      { author := "", description := "", homepage := "", repository := ""
        license := "", tags := [], extra := [] } }

/-- A lockfile that fails validation (empty version). -/
def invalidLockfile : Lockfile :=
  { sampleLockfile with version := "" }

end Dragonglass

namespace Dragonglass

/-- C9: for a malformed artifact digest (empty, without a colon, or with a
non-hex value part) parseSignstoreBundle selects WithoutArtifactUnsafe and a
bundle whose cryptographic steps pass verifies successfully with no
subject-digest check, whatever its statement subjects are. -/
theorem c9_malformed_digest_unsafe_policy (d : String) (b : Bundle)
    (hmal : d = "" ∨ splitOnceColon d = none ∨
      ∃ alg value, splitOnceColon d = some (alg, value) ∧ hexDecode value = none)
    (hcrypto : b.cryptoOk = true) :
    parseSignstoreBundle d b =
      Except.ok { predicateType := b.statement.predicateType
                  predicate := b.statement.predicate } := by
  have hpol : parsePolicy d = ArtifactPolicy.withoutArtifact := by
    by_cases hd : d = ""
    · simp [parsePolicy, hd]
    · rcases hmal with h | h | ⟨alg, value, h1, h2⟩
      · exact absurd h hd
      · simp [parsePolicy, hd, h]
      · simp [parsePolicy, hd, h1, h2]
  unfold parseSignstoreBundle sigstoreVerify
  rw [hpol, hcrypto]
  simp

/-- C9 witness: a digest without a colon disables artifact binding and the
mismatched bundle verifies successfully. -/
theorem c9_malformed_digest_unsafe_policy_witness :
    parseSignstoreBundle "nocolondigest" mismatchedBundle =
      Except.ok { predicateType := mismatchedBundle.statement.predicateType
                  predicate := mismatchedBundle.statement.predicate } :=
  c9_malformed_digest_unsafe_policy "nocolondigest" mismatchedBundle
    (Or.inr (Or.inl (by decide))) (by decide)

/-- C1: under a well-formed non-empty artifact digest, a bundle whose
statement subjects do not list the bound digest fails verification and
yields no attestation data, even when every cryptographic step passes. -/
theorem c1_subject_digest_binding (d : String) (b : Bundle) (alg : String)
    (bytes : List Nat)
    (hpol : parsePolicy d = ArtifactPolicy.withArtifact alg bytes)
    (hcrypto : b.cryptoOk = true)
    (hnomatch : ∀ s ∈ b.statement.subjects, (alg, hexEncode bytes) ∉ s.digests) :
    ∃ e, parseSignstoreBundle d b = Except.error e := by
  refine ⟨"sigstore bundle verification failed: subject digest mismatch", ?_⟩
  have hlist : subjectListsDigest b.statement.subjects alg bytes = false := by
    rw [subjectListsDigest, List.any_eq_false]
    intro s hs hsany
    rw [List.any_eq_true] at hsany
    obtain ⟨⟨a, v⟩, hdg, hcontra⟩ := hsany
    rw [Bool.and_eq_true, beq_iff_eq, beq_iff_eq] at hcontra
    rcases hcontra with ⟨ha, hv⟩
    subst ha
    subst hv
    exact hnomatch s hs hdg
  simp [parseSignstoreBundle, sigstoreVerify, hpol, hcrypto, hlist]

/-- C1 witness: binding to sha256:0a, a bundle whose only subject lists
sha256:0b fails even though all cryptographic steps pass. -/
theorem c1_subject_digest_binding_witness :
    ∃ e, parseSignstoreBundle "sha256:0a" mismatchedBundle = Except.error e :=
  c1_subject_digest_binding "sha256:0a" mismatchedBundle "sha256" [10]
    (by decide) (by decide) (by decide)

/-- C2: the sigstore service path's trust decision reads
buildDefinition.buildType, not runDetails.builder.id: on a predicate whose
buildType equals the trusted-builder URI while builder.id is a different
URI, verifySLSAAttestation marks the builder trusted, whereas the
attestation path's verifySLSA (which follows the spec) reports the
builder.id and an invalid result. -/
theorem c2_service_buildtype_trust_bug :
    (svcVerifySLSAAttestation "https://trusted.example/builder" crossedSvcAtt).trustedBuilder
        = true
    ∧ (svcVerifySLSAAttestation "https://trusted.example/builder" crossedSvcAtt).builderID
        = "https://trusted.example/builder"
    ∧ ∃ r, verifySLSA "https://trusted.example/builder" [crossedAtt] = Except.ok r
        ∧ r.builder = "https://evil.example/builder" ∧ r.valid = false := by
  refine ⟨by decide, by decide, ⟨_, rfl, rfl, by decide⟩⟩

/-- C10: the SBOM validator marks its outcome valid exactly when the first
SBOM attestation's predicate is a JSON object, whatever that object
contains; a non-object predicate leaves the outcome invalid with no error
returned. -/
theorem c10_sbom_valid_any_object (atts : List AttestationData)
    (a : AttestationData) (rest : List AttestationData) (h : atts = a :: rest) :
    ((∀ fields, a.predicate = Json.obj fields →
        ∃ r, verifySBOM atts = Except.ok r ∧ r.valid = true)
     ∧ ((∀ fields, a.predicate ≠ Json.obj fields) →
        ∃ r, verifySBOM atts = Except.ok r ∧ r.valid = false)) := by
  subst h
  obtain ⟨pt, pred⟩ := a
  constructor
  · intro fields hf
    cases hf
    exact ⟨_, rfl, rfl⟩
  · intro hnf
    cases pred with
    | obj fields => exact absurd rfl (hnf fields)
    | null => exact ⟨_, rfl, rfl⟩
    | bool b => exact ⟨_, rfl, rfl⟩
    | num n => exact ⟨_, rfl, rfl⟩
    | str s => exact ⟨_, rfl, rfl⟩
    | arr xs => exact ⟨_, rfl, rfl⟩

/-- Helper: a non-empty SLSA group verifies with a valid result exactly when
its first attestation decodes to provenance that validates and whose
builder id equals the non-empty trusted builder. -/
theorem verifySLSA_ok_valid (T : String) (a : AttestationData)
    (rest : List AttestationData) :
    (∃ r, verifySLSA T (a :: rest) = Except.ok r ∧ r.valid = true) ↔
      ∃ p, decodeProvenance a.predicate = Except.ok p
        ∧ validateProvenance p = Except.ok () ∧ T ≠ "" ∧ builderIdOf p = T := by
  unfold verifySLSA
  cases hdec : decodeProvenance a.predicate with
  | error e =>
    simp only [hdec]
    constructor
    · rintro ⟨r, hr, _⟩
      exact Except.noConfusion hr
    · rintro ⟨p, hp, _⟩
      exact Except.noConfusion hp
  | ok prov =>
    cases hval : validateProvenance prov with
    | error e =>
      simp only [hdec, hval]
      constructor
      · rintro ⟨r, hr, _⟩
        exact Except.noConfusion hr
      · rintro ⟨p, hp, hv, _⟩
        cases hp
        exact Except.noConfusion (hval ▸ hv)
    | ok u =>
      cases u
      simp only [hdec, hval]
      constructor
      · rintro ⟨r, hr, hv⟩
        cases hr
        rw [Bool.and_eq_true, bne_iff_ne, beq_iff_eq] at hv
        exact ⟨prov, rfl, hval, hv.1, hv.2⟩
      · rintro ⟨p, hp, _, hT, hb⟩
        cases hp
        refine ⟨_, rfl, ?_⟩
        rw [Bool.and_eq_true, bne_iff_ne, beq_iff_eq]
        exact ⟨hT, hb⟩

/-- C3 counterexample: an image with two SLSA bundle referrers, the second
of which carries provenance from the trusted builder, still yields an
invalid aggregate result, because only the first discovered SLSA attestation
is examined. -/
theorem c3_exists_semantics_counterexample :
    (verifyAttestations "https://trusted.example/builder" twoSlsaImage).valid = false
    ∧ trustedBundle ∈ getSLSAAttestations twoSlsaImage.referrers
    ∧ trustedBundle.statement.predicateType = SLSAPredicateV1
    ∧ ∃ p, decodeProvenance trustedBundle.statement.predicate = Except.ok p
        ∧ validateProvenance p = Except.ok ()
        ∧ builderIdOf p = "https://trusted.example/builder" := by
  refine ⟨by decide, ?_, rfl, ⟨_, rfl, rfl, rfl⟩⟩
  show trustedBundle ∈ [evilBundle, trustedBundle]
  exact List.Mem.tail _ (List.Mem.head _)

/-- C3 amended: the aggregate result is valid exactly when the list of
discovered SLSA attestations is non-empty and its FIRST element carries
provenance that decodes, validates, and names the non-empty trusted builder
as runDetails.builder.id; later SLSA attestations and all SBOM attestations
have no effect on validity. -/
theorem c3_first_slsa_only (trustedBuilder digest : String)
    (atts : List AttestationData) (parseWarnings : List String) :
    (processAttestations trustedBuilder digest atts parseWarnings).valid = true ↔
      ∃ a rest, atts.filter (fun x => x.predicateType == SLSAPredicateV1) = a :: rest
        ∧ ∃ p, decodeProvenance a.predicate = Except.ok p
          ∧ validateProvenance p = Except.ok ()
          ∧ trustedBuilder ≠ "" ∧ builderIdOf p = trustedBuilder := by
  unfold processAttestations
  cases hfil : atts.filter (fun x => x.predicateType == SLSAPredicateV1) with
  | nil =>
    simp only [hfil, List.isEmpty_nil, if_true]
    constructor
    · intro hcontra
      exact absurd hcontra (by decide)
    · rintro ⟨a, rest, heq, _⟩
      exact List.noConfusion heq
  | cons b brest =>
    simp only [hfil, List.isEmpty_cons, Bool.false_eq_true, if_false]
    cases hres : verifySLSA trustedBuilder (b :: brest) with
    | error e =>
      simp only [hres]
      constructor
      · intro hcontra
        exact absurd hcontra (by decide)
      · rintro ⟨a2, rest2, heq, hP⟩
        injection heq with h1 h2
        subst h1
        subst h2
        obtain ⟨r, hr, _⟩ := (verifySLSA_ok_valid trustedBuilder b brest).mpr hP
        rw [hres] at hr
        exact Except.noConfusion hr
    | ok r =>
      simp only [hres]
      constructor
      · intro hv
        exact ⟨b, brest, rfl,
          (verifySLSA_ok_valid trustedBuilder b brest).mp ⟨r, hres, hv⟩⟩
      · rintro ⟨a2, rest2, heq, hP⟩
        injection heq with h1 h2
        subst h1
        subst h2
        obtain ⟨r', hr', hv'⟩ := (verifySLSA_ok_valid trustedBuilder b brest).mpr hP
        rw [hres] at hr'
        cases hr'
        exact hv'

/-- C4 counterexample: an image whose only bundle referrer is an SBOM
attestation (annotated with the SPDX 2.3 predicate type, cryptographically
sound, and one whose predicate the SBOM validator would accept) yields
`found = false` with no SBOM outcome at all: the discovery step never
fetches referrers that are not annotated as SLSA provenance. -/
theorem c4_sbom_referrer_not_fetched :
    sbomBundle.statement.predicateType = SBOMPredicateV2
    ∧ sbomBundle.cryptoOk = true
    ∧ (∃ r, verifySBOM [{ predicateType := sbomBundle.statement.predicateType
                          predicate := sbomBundle.statement.predicate }]
          = Except.ok r ∧ r.valid = true ∧ r.components = 2)
    ∧ (verifyAttestations "https://trusted.example/builder" sbomOnlyImage).found = false
    ∧ (verifyAttestations "https://trusted.example/builder" sbomOnlyImage).sbom = none := by
  exact ⟨rfl, rfl, ⟨_, rfl, rfl, rfl⟩, by decide, by decide⟩

/-- C4 amended, part of the statement about discovery: when no referrer
carries the SLSA provenance predicate-type annotation, nothing is fetched
and verification reports not-found — an SBOM-annotated referrer alone is
never fetched or routed.  Part about routing: when the parsed attestations
contain no SLSA statement and their first SPDX statement has an object
predicate with a packages array, the aggregate is found-but-invalid and the
SBOM outcome is valid with the format drawn from the predicate type and the
component count equal to the packages length. -/
theorem c4_sbom_routing_amended :
    (∀ (img : RegistryImage) (vT : String),
      (∀ r ∈ img.referrers,
        lookupAnn r.desc.annotations "dev.sigstore.bundle.predicateType"
          ≠ some SLSAPredicateV1) →
      verifyAttestations vT img =
        { found := false, valid := false, errors := [], warnings := []
          slsa := none, sbom := none, artifactDigest := img.resolvedDigest })
    ∧ (∀ (vT d : String) (atts : List AttestationData) (w : List String)
        (a : AttestationData) (rest : List AttestationData)
        (fields : List (String × Json)) (pkgs : List Json),
      atts.filter (fun x => x.predicateType == SLSAPredicateV1) = [] →
      atts.filter (fun x => x.predicateType == SBOMPredicateV2
        || x.predicateType == SBOMPredicateV3) = a :: rest →
      a.predicate = Json.obj fields →
      lookupField fields "packages" = some (Json.arr pkgs) →
      (a.predicateType = SBOMPredicateV2 ∨ a.predicateType = SBOMPredicateV3) →
      processAttestations vT d atts w =
        { found := true, valid := false, errors := [], warnings := w ++ unknownPredicateWarnings atts
          slsa := none
          sbom := some { valid := true
                         format := if a.predicateType == SBOMPredicateV2
                           then "SPDX-2.3" else "SPDX-3.0"
                         components := pkgs.length
                         vulnerabilities := analyzeVulnerabilities fields }
          artifactDigest := d }) := by
  constructor
  · intro img vT hnone
    have hempty : getSLSAAttestations img.referrers = [] := by
      rw [getSLSAAttestations, List.filterMap_eq_nil_iff]
      intro r hr
      cases hlook : lookupAnn r.desc.annotations "dev.sigstore.bundle.predicateType" with
      | none => rfl
      | some pt =>
        have hne : pt ≠ SLSAPredicateV1 := by
          intro hcontra
          exact hnone r hr (hcontra ▸ hlook)
        simp [hne]
    simp [verifyAttestations, hempty]
  · intro vT d atts w a rest fields pkgs hslsa hsbom hpred hpkgs hty
    obtain ⟨pt, pred⟩ := a
    cases hpred
    unfold processAttestations
    rw [hslsa, hsbom]
    rcases hty with hty | hty
    · cases hty
      simp [verifySBOM, hpkgs, SBOMPredicateV2, SBOMPredicateV3]
    · cases hty
      simp [verifySBOM, hpkgs, SBOMPredicateV2, SBOMPredicateV3]

/-- C4 witness: applying the amended theorem at the SBOM-only image and at
a single-SPDX attestation list. -/
theorem c4_sbom_routing_amended_witness :
    (verifyAttestations "https://trusted.example/builder" sbomOnlyImage =
      { found := false, valid := false, errors := [], warnings := []
        slsa := none, sbom := none, artifactDigest := "sha256:0a" })
    ∧ (processAttestations "https://trusted.example/builder" "sha256:0a" [sbomObjAtt] [] =
      { found := true, valid := false, errors := [], warnings := []
        slsa := none
        sbom := some { valid := true, format := "SPDX-2.3", components := 2
                       vulnerabilities := [] }
        artifactDigest := "sha256:0a" }) := by
  constructor
  · exact c4_sbom_routing_amended.1 sbomOnlyImage "https://trusted.example/builder"
      (by decide)
  · have h := c4_sbom_routing_amended.2 "https://trusted.example/builder" "sha256:0a"
      [sbomObjAtt] [] sbomObjAtt []
      [("packages",
         Json.arr [Json.obj [("name", Json.str "safe-lib"),
                             ("versionInfo", Json.str "1.0.0")],
                   Json.obj [("name", Json.str "other-lib"),
                             ("versionInfo", Json.str "2.0.0")]])]
      [Json.obj [("name", Json.str "safe-lib"), ("versionInfo", Json.str "1.0.0")],
       Json.obj [("name", Json.str "other-lib"), ("versionInfo", Json.str "2.0.0")]]
      rfl rfl rfl rfl (Or.inl rfl)
    exact h

/-- C5 counterexample: on an image that resolves but has no bundle
referrers, the sigstore service path's VerifyAttestations reports
`found = false, valid = false` but a non-empty error list (containing
"No attestations found"), not the empty error list the claim requires. -/
theorem c5_service_error_on_empty :
    (svcVerifyAttestations "https://trusted.example/builder" emptyReferrersImage).found = false
    ∧ (svcVerifyAttestations "https://trusted.example/builder" emptyReferrersImage).valid = false
    ∧ (svcVerifyAttestations "https://trusted.example/builder" emptyReferrersImage).errors
        = ["No attestations found"]
    ∧ (svcVerifyAttestations "https://trusted.example/builder" emptyReferrersImage).errors
        ≠ [] := by
  exact ⟨rfl, rfl, rfl, by decide⟩

/-- C5 amended: on an empty referrer set the attestation-package verify
returns found = false, valid = false with empty error and warning lists,
while the sigstore service verify returns found = false, valid = false with
empty warnings but the single error "No attestations found". -/
theorem c5_empty_referrers_amended (vT : String) (img : RegistryImage)
    (h : img.referrers = []) :
    verifyAttestations vT img =
      { found := false, valid := false, errors := [], warnings := []
        slsa := none, sbom := none, artifactDigest := img.resolvedDigest }
    ∧ svcVerifyAttestations vT img =
      { found := false, valid := false, errors := ["No attestations found"]
        warnings := [], slsa := none, sbom := none } := by
  constructor
  · simp [verifyAttestations, getSLSAAttestations, h]
  · simp [svcVerifyAttestations, svcDiscoverAttestations, getSLSAAttestations, h]

/-- C5 witness: the amended theorem applied at the image with no
referrers. -/
theorem c5_empty_referrers_amended_witness :
    verifyAttestations "https://trusted.example/builder" emptyReferrersImage =
      { found := false, valid := false, errors := [], warnings := []
        slsa := none, sbom := none, artifactDigest := "sha256:0a" }
    ∧ svcVerifyAttestations "https://trusted.example/builder" emptyReferrersImage =
      { found := false, valid := false, errors := ["No attestations found"]
        warnings := [], slsa := none, sbom := none } :=
  c5_empty_referrers_amended "https://trusted.example/builder" emptyReferrersImage rfl

/-- C6 counterexample: saving a validating lockfile performs exactly a
directory creation and one direct write of the serialized document at
permissions 0644 — no temporary file, no rename, and not the owner-only
0600 the claim requires. -/
theorem c6_save_not_atomic_0644 :
    saveLockfile sampleLockfile sampleLockfilePath =
      Except.ok [FsOp.mkdirAll "/vault/.obsidian" 0o755,
                 FsOp.writeFile sampleLockfilePath (encodeLockfile sampleLockfile) 0o644]
    ∧ (FsOp.mkdirAll "/vault/.obsidian" 0o755).isRename = false
    ∧ (FsOp.writeFile sampleLockfilePath (encodeLockfile sampleLockfile) 0o644).isRename
        = false
    ∧ DefaultLockfilePerms = 0o644
    ∧ DefaultLockfilePerms ≠ 0o600 := by
  exact ⟨rfl, rfl, rfl, rfl, by decide⟩

/-- C6 amended: SaveLockfile validates and then writes the serialized
document directly to the lockfile path with permissions 0644, after an
0755 MkdirAll on the parent directory; no write-to-temp-and-rename step
exists. -/
theorem c6_save_direct_write_amended (l : Lockfile) (path : String)
    (h : validateLockfile l = Except.ok ()) :
    saveLockfile l path =
      Except.ok [FsOp.mkdirAll (dirOf path) 0o755,
                 FsOp.writeFile path (encodeLockfile l) DefaultLockfilePerms] := by
  unfold saveLockfile
  rw [h]

/-- C6 witness: the amended theorem applied at a concrete lockfile and
path. -/
theorem c6_save_direct_write_amended_witness :
    saveLockfile sampleLockfile sampleLockfilePath =
      Except.ok [FsOp.mkdirAll (dirOf sampleLockfilePath) 0o755,
                 FsOp.writeFile sampleLockfilePath (encodeLockfile sampleLockfile)
                   DefaultLockfilePerms] :=
  c6_save_direct_write_amended sampleLockfile sampleLockfilePath rfl

/-- C8 counterexample: AddPlugin accepts an entry whose pinned OCI
reference and pinned OCI digest are both empty. -/
theorem c8_addplugin_accepts_empty_digest :
    emptyRefEntry.ociReference = "" ∧ emptyRefEntry.ociDigest = ""
    ∧ ∃ l, addPlugin "2024-01-02T00:00:00Z" sampleLockfile "plugin-1" emptyRefEntry
        = Except.ok l := by
  exact ⟨rfl, rfl, ⟨_, rfl⟩⟩

/-- C8 amended: AddPlugin fails exactly when the plugin id or the entry's
name is empty (an empty pinned reference or digest is accepted, to be caught
only by Validate at save time); RemovePlugin of an absent id fails;
SaveLockfile of a non-validating lockfile fails, performing no filesystem
operation. -/
theorem c8_failure_model_amended :
    (∀ (now : String) (l : Lockfile) (pid : String) (e : PluginEntry),
      (∃ msg, addPlugin now l pid e = Except.error msg) ↔ (pid = "" ∨ e.name = ""))
    ∧ (∀ (now : String) (l : Lockfile) (pid : String),
      lookupPlugin (l.plugins.getD []) pid = none →
      ∃ msg, removePlugin now l pid = Except.error msg)
    ∧ (∀ (l : Lockfile) (path : String) (msg : String),
      validateLockfile l = Except.error msg →
      saveLockfile l path = Except.error ("invalid lockfile: " ++ msg)) := by
  refine ⟨?_, ?_, ?_⟩
  · intro now l pid e
    constructor
    · rintro ⟨msg, hmsg⟩
      by_cases hpid : pid = ""
      · exact Or.inl hpid
      · by_cases hname : e.name = ""
        · exact Or.inr hname
        · exfalso
          unfold addPlugin at hmsg
          rw [if_neg hpid, if_neg hname] at hmsg
          exact Except.noConfusion hmsg
    · rintro (h | h)
      · exact ⟨_, by unfold addPlugin; rw [if_pos h]⟩
      · by_cases hpid : pid = ""
        · exact ⟨_, by unfold addPlugin; rw [if_pos hpid]⟩
        · exact ⟨_, by unfold addPlugin; rw [if_neg hpid, if_pos h]⟩
  · intro now l pid h
    refine ⟨"plugin " ++ pid ++ " not found in lockfile", ?_⟩
    unfold removePlugin
    rw [h]
  · intro l path msg h
    unfold saveLockfile
    rw [h]

/-- C8 witness: the amended theorem applied at concrete inputs — an empty
plugin id, an absent id, and a lockfile with an empty version. -/
theorem c8_failure_model_amended_witness :
    (∃ msg, addPlugin "t" sampleLockfile "" emptyRefEntry = Except.error msg)
    ∧ (∃ msg, removePlugin "t" sampleLockfile "absent" = Except.error msg)
    ∧ saveLockfile invalidLockfile sampleLockfilePath =
        Except.error ("invalid lockfile: " ++ "lockfile version is required") :=
  ⟨(c8_failure_model_amended.1 "t" sampleLockfile "" emptyRefEntry).mpr (Or.inl rfl),
   c8_failure_model_amended.2.1 "t" sampleLockfile "absent" rfl,
   c8_failure_model_amended.2.2 invalidLockfile sampleLockfilePath
     "lockfile version is required" rfl⟩

/-- Helper: decoding an encoded string list is the identity. -/
theorem decodeStrElems_map (l : List String) :
    decodeStrElems (l.map Json.str) = Except.ok l := by
  induction l with
  | nil => rfl
  | cons x xs ih => simp [decodeStrElems, ih, Except.map]

/-- Helper: decoding an encoded string map is the identity. -/
theorem decodeStrPairs_map (l : List (String × String)) :
    decodeStrPairs (l.map fun kv => (kv.1, Json.str kv.2)) = Except.ok l := by
  induction l with
  | nil => rfl
  | cons kv rest ih =>
    obtain ⟨k, v⟩ := kv
    simp [decodeStrPairs, ih, Except.map]

/-- Helper: decoding an encoded verification state is the identity. -/
theorem decodeVS_encode (v : LockVerificationState) :
    decodeVerificationState (encodeVerificationState v) = Except.ok v := by
  obtain ⟨pv, sv, vp, ws, es⟩ := v
  cases ws <;> cases es <;>
    simp [encodeVerificationState, decodeVerificationState, getBool, getStrList,
      encodeStrList, lookupField, decodeStrElems_map, decodeStrElems, Except.map]

/-- Helper: decoding encoded plugin metadata is the identity. -/
theorem decodeMeta_encode (m : LockPluginMetadata) :
    decodePluginMetadata (encodePluginMetadata m) = Except.ok m := by
  obtain ⟨au, de, ho, re, li, ta, ex⟩ := m
  by_cases hau : au = "" <;> by_cases hde : de = "" <;> by_cases hho : ho = "" <;>
    by_cases hre : re = "" <;> by_cases hli : li = "" <;> cases ta <;> cases ex <;>
    simp [encodePluginMetadata, decodePluginMetadata, decodeExtraField, getStr,
      getStrList, encodeStrList, lookupField, decodeStrElems_map, decodeStrElems,
      decodeStrPairs_map, decodeStrPairs, Except.map, hau, hde, hho, hre, hli]

/-- Helper: decoding an encoded plugin entry is the identity. -/
theorem decodeEntry_encode (p : PluginEntry) :
    decodePluginEntry (encodePluginEntry p) = Except.ok p := by
  obtain ⟨na, ve, orf, od, vs, md⟩ := p
  simp [encodePluginEntry, decodePluginEntry, getStr, lookupField,
    decodeVS_encode, decodeMeta_encode]

/-- Helper: decoding an encoded plugins map is the identity. -/
theorem decodePluginPairs_encode (ps : List (String × PluginEntry)) :
    decodePluginPairs (ps.map fun kv => (kv.1, encodePluginEntry kv.2)) =
      Except.ok ps := by
  induction ps with
  | nil => rfl
  | cons kv rest ih =>
    obtain ⟨k, p⟩ := kv
    simp [decodePluginPairs, decodeEntry_encode, ih]

/-- Helper: decoding an encoded lockfile is the identity. -/
theorem decodeLockfile_encode (l : Lockfile) :
    decodeLockfile (encodeLockfile l) = Except.ok l := by
  obtain ⟨ve, ga, ua, ps, md⟩ := l
  obtain ⟨vp, dv, sv⟩ := md
  cases ps with
  | none =>
    simp [encodeLockfile, decodeLockfile, decodePluginsField, getStr, lookupField,
      decodeLockfileMetadata]
  | some plist =>
    simp [encodeLockfile, decodeLockfile, decodePluginsField, getStr, lookupField,
      decodeLockfileMetadata, decodePluginPairs_encode]

/-- Helper: a missing key decodes to the empty string. -/
theorem getStr_of_lookup_none {fields : List (String × Json)} {key : String}
    (h : lookupField fields key = none) : getStr fields key = Except.ok "" := by
  unfold getStr
  rw [h]

/-- Helper: a successful lockfile decode determines the version and plugins
components from the document fields. -/
theorem decodeLockfile_ok_fields {fields : List (String × Json)} {lf : Lockfile}
    (h : decodeLockfile (Json.obj fields) = Except.ok lf) :
    getStr fields "version" = Except.ok lf.version
    ∧ decodePluginsField fields = Except.ok lf.plugins := by
  unfold decodeLockfile at h
  cases hv : getStr fields "version" with
  | error e => simp only [hv] at h; exact Except.noConfusion h
  | ok s =>
    simp only [hv] at h
    cases hg : getStr fields "generated_at" with
    | error e => simp only [hg] at h; exact Except.noConfusion h
    | ok ga =>
      simp only [hg] at h
      cases hu : getStr fields "updated_at" with
      | error e => simp only [hu] at h; exact Except.noConfusion h
      | ok ua =>
        simp only [hu] at h
        cases hp : decodePluginsField fields with
        | error e => simp only [hp] at h; exact Except.noConfusion h
        | ok ps =>
          simp only [hp] at h
          cases hm : decodeLockfileMetadata
              ((lookupField fields "metadata").getD Json.null) with
          | error e => simp only [hm] at h; exact Except.noConfusion h
          | ok md =>
            simp only [hm] at h
            cases h
            exact ⟨rfl, rfl⟩

/-- Helper: a successful plugin-entry decode determines the name, reference
and digest fields from the entry's document fields. -/
theorem decodeEntry_ok_fields {fields : List (String × Json)} {p : PluginEntry}
    (h : decodePluginEntry (Json.obj fields) = Except.ok p) :
    getStr fields "name" = Except.ok p.name
    ∧ getStr fields "oci_reference" = Except.ok p.ociReference
    ∧ getStr fields "oci_digest" = Except.ok p.ociDigest := by
  unfold decodePluginEntry at h
  cases h1 : getStr fields "name" with
  | error e => simp only [h1] at h; exact Except.noConfusion h
  | ok na =>
    simp only [h1] at h
    cases h2 : getStr fields "version" with
    | error e => simp only [h2] at h; exact Except.noConfusion h
    | ok ve =>
      simp only [h2] at h
      cases h3 : getStr fields "oci_reference" with
      | error e => simp only [h3] at h; exact Except.noConfusion h
      | ok orf =>
        simp only [h3] at h
        cases h4 : getStr fields "oci_digest" with
        | error e => simp only [h4] at h; exact Except.noConfusion h
        | ok od =>
          simp only [h4] at h
          cases h5 : decodeVerificationState
              ((lookupField fields "verification_state").getD Json.null) with
          | error e => simp only [h5] at h; exact Except.noConfusion h
          | ok vs =>
            simp only [h5] at h
            cases h6 : decodePluginMetadata
                ((lookupField fields "metadata").getD Json.null) with
            | error e => simp only [h6] at h; exact Except.noConfusion h
            | ok md =>
              simp only [h6] at h
              cases h
              exact ⟨rfl, rfl, rfl⟩

/-- Helper: when the plugins object decodes, every document entry has a
decoded counterpart under the same plugin id. -/
theorem decodePluginPairs_mem {pfs : List (String × Json)}
    {l : List (String × PluginEntry)} {pid : String} {v : Json}
    (h : decodePluginPairs pfs = Except.ok l) (hm : (pid, v) ∈ pfs) :
    ∃ e, (pid, e) ∈ l ∧ decodePluginEntry v = Except.ok e := by
  induction pfs generalizing l with
  | nil => cases hm
  | cons kv rest ih =>
    obtain ⟨k, jv⟩ := kv
    unfold decodePluginPairs at h
    cases hd : decodePluginEntry jv with
    | error e => simp only [hd] at h; exact Except.noConfusion h
    | ok entry =>
      simp only [hd] at h
      cases hr : decodePluginPairs rest with
      | error e => simp only [hr] at h; exact Except.noConfusion h
      | ok ltail =>
        simp only [hr] at h
        cases h
        rcases List.mem_cons.mp hm with hh | ht
        · cases hh
          exact ⟨entry, List.Mem.head _, hd⟩
        · obtain ⟨e, hel, hde⟩ := ih hr ht
          exact ⟨e, List.Mem.tail _ hel, hde⟩

/-- Helper: an entry that passes validation has all three required fields
non-empty. -/
theorem validateEntry_ok {k : String} {p : PluginEntry}
    (h : validateEntry k p = Except.ok ()) :
    p.name ≠ "" ∧ p.ociReference ≠ "" ∧ p.ociDigest ≠ "" := by
  unfold validateEntry at h
  by_cases h1 : p.name = ""
  · rw [if_pos h1] at h
    exact absurd h (by simp)
  · rw [if_neg h1] at h
    by_cases h2 : p.ociReference = ""
    · rw [if_pos h2] at h
      exact absurd h (by simp)
    · rw [if_neg h2] at h
      by_cases h3 : p.ociDigest = ""
      · rw [if_pos h3] at h
        exact absurd h (by simp)
      · exact ⟨h1, h2, h3⟩

/-- Helper: a plugins map containing an entry with an empty required field
fails validation. -/
theorem validatePlugins_mem_error {l : List (String × PluginEntry)} {pid : String}
    {e : PluginEntry} (hm : (pid, e) ∈ l)
    (hbad : e.name = "" ∨ e.ociReference = "" ∨ e.ociDigest = "") :
    ∃ msg, validatePlugins l = Except.error msg := by
  induction l with
  | nil => cases hm
  | cons kv rest ih =>
    obtain ⟨k, p⟩ := kv
    unfold validatePlugins
    cases hv : validateEntry k p with
    | error msg => exact ⟨msg, rfl⟩
    | ok u =>
      cases u
      simp only [hv]
      rcases List.mem_cons.mp hm with hh | ht
      · exfalso
        cases hh
        obtain ⟨n1, n2, n3⟩ := validateEntry_ok hv
        rcases hbad with hb | hb | hb
        · exact n1 hb
        · exact n2 hb
        · exact n3 hb
      · exact ih ht

/-- C7: saving a validating lockfile and loading the written document yields
the same lockfile back; and loading a document that exists but is missing a
required field — the version, or a plugin entry's name, OCI reference, or
OCI digest — fails rather than returning a lockfile. -/
theorem c7_lockfile_roundtrip :
    (∀ l : Lockfile, validateLockfile l = Except.ok () →
      loadLockfile (encodeLockfile l) = Except.ok l)
    ∧ (∀ fields : List (String × Json), lookupField fields "version" = none →
      ∀ l, loadLockfile (Json.obj fields) ≠ Except.ok l)
    ∧ (∀ (fields pe pfs : List (String × Json)) (pid key : String),
      lookupField fields "plugins" = some (Json.obj pfs) →
      (pid, Json.obj pe) ∈ pfs →
      (key = "name" ∨ key = "oci_reference" ∨ key = "oci_digest") →
      lookupField pe key = none →
      ∀ l, loadLockfile (Json.obj fields) ≠ Except.ok l) := by
  refine ⟨?_, ?_, ?_⟩
  · intro l hval
    unfold loadLockfile
    rw [decodeLockfile_encode l]
    simp only [hval]
  · intro fields hver l hcontra
    unfold loadLockfile at hcontra
    cases hdec : decodeLockfile (Json.obj fields) with
    | error e => simp only [hdec] at hcontra; exact Except.noConfusion hcontra
    | ok lf =>
      simp only [hdec] at hcontra
      have hv : lf.version = "" := by
        have hx := (decodeLockfile_ok_fields hdec).1
        rw [getStr_of_lookup_none hver] at hx
        injection hx with hx2
        exact hx2.symm
      have hval2 : validateLockfile lf = Except.error "lockfile version is required" := by
        unfold validateLockfile
        rw [hv, if_pos rfl]
      simp only [hval2] at hcontra
      exact Except.noConfusion hcontra
  · intro fields pe pfs pid key hplug hmem hkey hnone l hcontra
    unfold loadLockfile at hcontra
    cases hdec : decodeLockfile (Json.obj fields) with
    | error e => simp only [hdec] at hcontra; exact Except.noConfusion hcontra
    | ok lf =>
      simp only [hdec] at hcontra
      obtain ⟨-, hpf⟩ := decodeLockfile_ok_fields hdec
      unfold decodePluginsField at hpf
      simp only [hplug] at hpf
      cases hpp : decodePluginPairs pfs with
      | error e => simp only [hpp] at hpf; exact Except.noConfusion hpf
      | ok pl =>
        simp only [hpp] at hpf
        have hlp : lf.plugins = some pl := by
          injection hpf with hx
          exact hx.symm
        obtain ⟨en, hel, hde⟩ := decodePluginPairs_mem hpp hmem
        obtain ⟨hn, hr, hdg⟩ := decodeEntry_ok_fields hde
        have hbad : en.name = "" ∨ en.ociReference = "" ∨ en.ociDigest = "" := by
          rcases hkey with hk | hk | hk
          · subst hk
            left
            rw [getStr_of_lookup_none hnone] at hn
            injection hn with hx
            exact hx.symm
          · subst hk
            right
            left
            rw [getStr_of_lookup_none hnone] at hr
            injection hr with hx
            exact hx.symm
          · subst hk
            right
            right
            rw [getStr_of_lookup_none hnone] at hdg
            injection hdg with hx
            exact hx.symm
        obtain ⟨msg, hvp⟩ := validatePlugins_mem_error hel hbad
        cases hvl : validateLockfile lf with
        | error e2 => simp only [hvl] at hcontra; exact Except.noConfusion hcontra
        | ok u =>
          exfalso
          unfold validateLockfile at hvl
          by_cases hv : lf.version = ""
          · rw [if_pos hv] at hvl
            exact Except.noConfusion hvl
          · rw [if_neg hv] at hvl
            simp only [hlp] at hvl
            rw [hvp] at hvl
            exact Except.noConfusion hvl

/-- C7 witness: the round trip at a concrete lockfile; a failing load for a
document missing the version field; a failing load for a document whose
plugin entry is missing the OCI reference. -/
theorem c7_lockfile_roundtrip_witness :
    loadLockfile (encodeLockfile sampleLockfile) = Except.ok sampleLockfile
    ∧ loadLockfile (Json.obj [("plugins", Json.obj [])]) ≠ Except.ok sampleLockfile
    ∧ loadLockfile (Json.obj [("version", Json.str "1"),
        ("plugins", Json.obj [("p1", Json.obj [("name", Json.str "x")])])])
      ≠ Except.ok sampleLockfile :=
  ⟨c7_lockfile_roundtrip.1 sampleLockfile rfl,
   c7_lockfile_roundtrip.2.1 [("plugins", Json.obj [])] rfl sampleLockfile,
   c7_lockfile_roundtrip.2.2
     [("version", Json.str "1"), ("plugins", Json.obj [("p1", Json.obj [("name", Json.str "x")])])]
     [("name", Json.str "x")] [("p1", Json.obj [("name", Json.str "x")])]
     "p1" "oci_reference" rfl (List.Mem.head _) (Or.inr (Or.inl rfl)) rfl
     sampleLockfile⟩

/-- C10 witness: an object predicate with packages yields a valid SBOM
outcome; a string predicate yields an invalid outcome with no error. -/
theorem c10_sbom_valid_any_object_witness :
    (∃ r, verifySBOM [sbomObjAtt] = Except.ok r ∧ r.valid = true)
    ∧ (∃ r, verifySBOM [sbomStrAtt] = Except.ok r ∧ r.valid = false) :=
  ⟨(c10_sbom_valid_any_object [sbomObjAtt] sbomObjAtt [] rfl).1 _ rfl,
   (c10_sbom_valid_any_object [sbomStrAtt] sbomStrAtt [] rfl).2
     (fun _ hcontra => Json.noConfusion hcontra)⟩

end Dragonglass
